import Mathlib

/-!
Verification of the versus comparison engine: a shallow embedding of
`src/main.rs` (the `VersusConfig` / `HttpJsonRpcProvider` / `App` types and
the `App::new`, `App::run`, `App::send_supposed_json` functions), together
with theorems settling the specification claims about pool building, the
request fan-out loop, the per-request aggregation pass and the reported
signals.  External collaborators (URL parsing, the HTTP transport, wall-clock
timing) are passed in as function parameters.
-/

namespace Versus

/-- The parsed connection target of one endpoint.  URL parsing itself is the
external `reqwest::Url` collaborator; a parsed target is kept abstract as its
rendered form. -/
abbrev Url := String

/-- `fn default_count() -> usize` returns `1_000`; the default of the
`--max-count` option. -/
def default_count : Nat := 1000

/-- `struct VersusConfig`: the positional rpc endpoint addresses and the
`--max-count` option. -/
structure VersusConfig where
  rpcs : List String
  max_count : Nat

/-- `struct HttpJsonRpcProvider`: one endpoint's client state.  The `client`
field is the external HTTP transport and carries no comparison-relevant
state; `next_id` is the `AtomicUsize` field. -/
structure HttpJsonRpcProvider where
  next_id : Nat
  url : Url
deriving DecidableEq

/-- `HttpJsonRpcProvider::new`: the `next_id` counter starts at 1. -/
def HttpJsonRpcProvider.new (url : Url) : HttpJsonRpcProvider :=
  { next_id := 1, url := url }

/-- One provider-level call result, i.e. the `Result<String, reqwest::Error>`
returned by `HttpJsonRpcProvider::send_supposed_json`, with the error already
rendered to the string that the aggregation pass builds from it. -/
inductive Outcome where
  | ok (body : String)
  | err (msg : String)
deriving DecidableEq

/-- `counter::Counter<String, usize>`: a multiset of strings, where
incrementing a key is multiset insertion. -/
abbrev Counter := Multiset String

/-- `Counter::len`: the number of distinct keys of the frequency table. -/
def Counter.len (c : Counter) : Nat := c.toFinset.card

/-- The tuples collected by `join_all` inside `App::send_supposed_json`: for
each provider, in pool order, `(provider, response, elapsed)`.  The HTTP call
itself is the external `transport`; its wall-clock time the external
`elapsed`. -/
def collectResponses (providers : List HttpJsonRpcProvider)
    (transport : HttpJsonRpcProvider → Outcome)
    (elapsed : HttpJsonRpcProvider → Nat) :
    List (HttpJsonRpcProvider × Outcome × Nat) :=
  providers.map fun provider => (provider, transport provider, elapsed provider)

/-- The `for (provider, response, duration) in responses` loop of
`App::send_supposed_json`: each `Ok` body is tallied into `successes`, each
rendered error into `errors`. -/
def tally : List (HttpJsonRpcProvider × Outcome × Nat) → Counter × Counter
  | [] => (0, 0)
  | (_, response, _) :: rest =>
    let t := tally rest
    match response with
    | Outcome.ok body => (body ::ₘ t.1, t.2)
    | Outcome.err msg => (t.1, msg ::ₘ t.2)

/-- The observable result of one `App::send_supposed_json` call: the two
frequency tables, whether the `all matched! yey!` branch was taken, and the
returned `anyhow::Result<()>` value. -/
structure SendOutput where
  successes : Counter
  errors : Counter
  all_matched : Bool
  result : Except String Unit

/-- `App::send_supposed_json`: clone the request to every provider, collect
all responses, build the two frequency tables, and take the `all matched`
branch exactly when `errors.len() == 0 && successes.len() == 1`; both the
early return and the fall-through return `Ok(())`. -/
def App.send_supposed_json (providers : List HttpJsonRpcProvider)
    (transport : HttpJsonRpcProvider → Outcome)
    (elapsed : HttpJsonRpcProvider → Nat) : SendOutput :=
  let responses := collectResponses providers transport elapsed
  let t := tally responses
  { successes := t.1
    errors := t.2
    all_matched := Counter.len t.2 == 0 && Counter.len t.1 == 1
    result := Except.ok () }

/-- The bodies of the successful outcomes of a collected response list. -/
def successBodies (rs : List (HttpJsonRpcProvider × Outcome × Nat)) :
    List String :=
  rs.filterMap fun r =>
    match r.2.1 with
    | Outcome.ok body => some body
    | Outcome.err _ => none

/-- The rendered messages of the failed outcomes of a collected response
list. -/
def errorMessages (rs : List (HttpJsonRpcProvider × Outcome × Nat)) :
    List String :=
  rs.filterMap fun r =>
    match r.2.1 with
    | Outcome.ok _ => none
    | Outcome.err msg => some msg

/-- `struct App`: the provider pool and the configured maximum request
count. -/
structure App where
  http_providers : List HttpJsonRpcProvider
  max_count : Nat

/-- `App::new`: parse each configured address with the external URL parser;
on success push a provider built from the parsed url, on failure print the
error and skip that address; the build itself always returns `Ok`. -/
def App.new (parseUrl : String → Option Url) (config : VersusConfig) :
    Except String App :=
  let http_providers := config.rpcs.foldl
    (fun acc rpc =>
      match parseUrl rpc with
      | some url => acc ++ [HttpJsonRpcProvider.new url]
      | none => acc)
    []
  Except.ok { http_providers := http_providers, max_count := config.max_count }

/-- What one `App::run` invocation did: the lines handed to
`send_supposed_json`, in order; the per-line aggregation outputs; the final
`count`; and the returned `anyhow::Result<()>`. -/
structure RunTrace where
  sent : List String
  outputs : List SendOutput
  count : Nat
  result : Except String Unit

/-- The `while let Some(line) = lines.next_line()` loop of `App::run`: each
raw line is handed as-is (no parsing) to `send_supposed_json`, whose error —
were it ever to produce one — would be propagated by `?` before the counter
moves; then `count += 1`, and the loop breaks once `count >= max_count`.
The per-line transport and elapsed observations are the external
collaborators, indexed by the line. -/
def App.runAux (providers : List HttpJsonRpcProvider) (max_count : Nat)
    (behavior : String → HttpJsonRpcProvider → Outcome)
    (elapsed : String → HttpJsonRpcProvider → Nat) :
    List String → Nat → RunTrace
  | [], count => { sent := [], outputs := [], count := count, result := Except.ok () }
  | line :: rest, count =>
    let out := App.send_supposed_json providers (behavior line) (elapsed line)
    match out.result with
    | Except.error e =>
      { sent := [line], outputs := [out], count := count, result := Except.error e }
    | Except.ok _ =>
      if max_count ≤ count + 1 then
        { sent := [line], outputs := [out], count := count + 1, result := Except.ok () }
      else
        let t := App.runAux providers max_count behavior elapsed rest (count + 1)
        { sent := line :: t.sent, outputs := out :: t.outputs, count := t.count,
          result := t.result }

/-- `App::run`: stream the input lines through the send loop, starting from
`count = 0`. -/
def App.run (app : App) (behavior : String → HttpJsonRpcProvider → Outcome)
    (elapsed : String → HttpJsonRpcProvider → Nat) (lines : List String) :
    RunTrace :=
  App.runAux app.http_providers app.max_count behavior elapsed lines 0

/-- A transport in which every provider answers with the same body. -/
def okTransport0 : HttpJsonRpcProvider → Outcome := fun _ => Outcome.ok "0x1"

/-- A trivial elapsed-time observation. -/
def zeroElapsed0 : HttpJsonRpcProvider → Nat := fun _ => 0

/-- A line-level transport in which every provider answers every line with
the same body. -/
def okTransportL : String → HttpJsonRpcProvider → Outcome := fun _ => okTransport0

/-- A line-level trivial elapsed-time observation. -/
def zeroElapsedL : String → HttpJsonRpcProvider → Nat := fun _ _ => 0

/-- The endpoint at address a. -/
def provA : HttpJsonRpcProvider := HttpJsonRpcProvider.new "http://a/"

/-- The endpoint at address b. -/
def provB : HttpJsonRpcProvider := HttpJsonRpcProvider.new "http://b/"

/-- A two-provider app with the default maximum request count. -/
def appAB : App := { http_providers := [provA, provB], max_count := default_count }

/-- A transport in which the two endpoints disagree on the response body. -/
def splitTransport : HttpJsonRpcProvider → Outcome := fun provider =>
  if provider.url == "http://a/" then Outcome.ok "0x1" else Outcome.ok "0x2"

/-- A transport in which endpoint b fails with a rendered transport error
while every other endpoint succeeds. -/
def failTransport : HttpJsonRpcProvider → Outcome := fun provider =>
  if provider.url == "http://b/" then Outcome.err "boom" else Outcome.ok "0x1"

/-- Modelled from the spec: input lines are "each decodable as either a
single object (method, params) or an array of such objects"; any such JSON
document begins, after leading whitespace, with an opening brace or bracket,
so this check is a necessary condition for a line to parse as a
RequestEnvelope.  The request-envelope parser itself does not exist anywhere
in the code. -/
def couldBeRequestEnvelope (line : String) : Bool :=
  match line.data.dropWhile (fun c => c.isWhitespace) with
  | [] => false
  | c :: _ => c = Char.ofNat 123 || c = Char.ofNat 91

/-- The request list built at the top of `App::send_supposed_json`: every
provider of the pool is paired with its own clone of the one request
string. -/
def App.broadcast (providers : List HttpJsonRpcProvider) (request : String) :
    List (HttpJsonRpcProvider × String) :=
  providers.map fun provider => (provider, request)

/-- The stream of request copies that the provider at position `i` of the
pool receives over a whole run, in delivery order. -/
def deliveredSeq (app : App) (behavior : String → HttpJsonRpcProvider → Outcome)
    (elapsed : String → HttpJsonRpcProvider → Nat) (lines : List String)
    (i : Nat) : List String :=
  ((App.run app behavior elapsed lines).sent).map fun line =>
    ((App.broadcast app.http_providers line).map Prod.snd).getD i ""

/-- The provider-level send with its state threaded explicitly: the active
send path reads `url` and the transport handle but never touches `next_id`,
so the provider state after the call is the provider state before it. -/
def HttpJsonRpcProvider.sendSt (provider : HttpJsonRpcProvider)
    (transport : HttpJsonRpcProvider → Outcome) :
    Outcome × HttpJsonRpcProvider :=
  (transport provider, provider)

/-- `App::send_supposed_json` with the pool state threaded explicitly
through the provider-level calls, to make any hidden state visible. -/
def App.send_supposed_json_st (providers : List HttpJsonRpcProvider)
    (transport : HttpJsonRpcProvider → Outcome)
    (elapsed : HttpJsonRpcProvider → Nat) :
    SendOutput × List HttpJsonRpcProvider :=
  (App.send_supposed_json providers transport elapsed,
   providers.map fun provider => (provider.sendSt transport).2)

lemma send_result_ok (providers : List HttpJsonRpcProvider)
    (transport : HttpJsonRpcProvider → Outcome)
    (elapsed : HttpJsonRpcProvider → Nat) :
    (App.send_supposed_json providers transport elapsed).result =
      Except.ok () := rfl

lemma send_successes (providers : List HttpJsonRpcProvider)
    (transport : HttpJsonRpcProvider → Outcome)
    (elapsed : HttpJsonRpcProvider → Nat) :
    (App.send_supposed_json providers transport elapsed).successes =
      (tally (collectResponses providers transport elapsed)).1 := rfl

lemma send_errors (providers : List HttpJsonRpcProvider)
    (transport : HttpJsonRpcProvider → Outcome)
    (elapsed : HttpJsonRpcProvider → Nat) :
    (App.send_supposed_json providers transport elapsed).errors =
      (tally (collectResponses providers transport elapsed)).2 := rfl

lemma send_all_matched_eq (providers : List HttpJsonRpcProvider)
    (transport : HttpJsonRpcProvider → Outcome)
    (elapsed : HttpJsonRpcProvider → Nat) :
    (App.send_supposed_json providers transport elapsed).all_matched =
      (Counter.len (tally (collectResponses providers transport elapsed)).2 == 0 &&
       Counter.len (tally (collectResponses providers transport elapsed)).1 == 1) := rfl

lemma tally_fst (rs : List (HttpJsonRpcProvider × Outcome × Nat)) :
    (tally rs).1 = (successBodies rs : Multiset String) := by
  induction rs with
  | nil => rfl
  | cons r rest ih =>
    obtain ⟨p, response, d⟩ := r
    cases response with
    | ok body => simp [tally, successBodies, List.filterMap_cons, ih]
    | err msg => simpa [tally, successBodies, List.filterMap_cons] using ih

lemma tally_snd (rs : List (HttpJsonRpcProvider × Outcome × Nat)) :
    (tally rs).2 = (errorMessages rs : Multiset String) := by
  induction rs with
  | nil => rfl
  | cons r rest ih =>
    obtain ⟨p, response, d⟩ := r
    cases response with
    | ok body => simpa [tally, errorMessages, List.filterMap_cons] using ih
    | err msg => simp [tally, errorMessages, List.filterMap_cons, ih]

lemma tally_card_sum (rs : List (HttpJsonRpcProvider × Outcome × Nat)) :
    Multiset.card (tally rs).1 + Multiset.card (tally rs).2 = rs.length := by
  induction rs with
  | nil => rfl
  | cons r rest ih =>
    obtain ⟨p, response, d⟩ := r
    cases response with
    | ok body =>
      simp only [tally, Multiset.card_cons, List.length_cons]
      omega
    | err msg =>
      simp only [tally, Multiset.card_cons, List.length_cons]
      omega

lemma App.new_foldl (parseUrl : String → Option Url) (rpcs : List String)
    (acc : List HttpJsonRpcProvider) :
    rpcs.foldl
      (fun acc rpc =>
        match parseUrl rpc with
        | some url => acc ++ [HttpJsonRpcProvider.new url]
        | none => acc)
      acc = acc ++ (rpcs.filterMap parseUrl).map HttpJsonRpcProvider.new := by
  induction rpcs generalizing acc with
  | nil => simp
  | cons rpc rest ih =>
    cases h : parseUrl rpc with
    | none => simp [List.foldl_cons, h, List.filterMap_cons, ih]
    | some url => simp [List.foldl_cons, h, List.filterMap_cons, ih]

lemma runAux_cons (providers : List HttpJsonRpcProvider) (max_count : Nat)
    (behavior : String → HttpJsonRpcProvider → Outcome)
    (elapsed : String → HttpJsonRpcProvider → Nat)
    (line : String) (rest : List String) (count : Nat) :
    App.runAux providers max_count behavior elapsed (line :: rest) count =
      (if max_count ≤ count + 1 then
        { sent := [line]
          outputs := [App.send_supposed_json providers (behavior line) (elapsed line)]
          count := count + 1
          result := Except.ok () }
      else
        { sent := line :: (App.runAux providers max_count behavior elapsed rest (count + 1)).sent
          outputs := App.send_supposed_json providers (behavior line) (elapsed line) ::
            (App.runAux providers max_count behavior elapsed rest (count + 1)).outputs
          count := (App.runAux providers max_count behavior elapsed rest (count + 1)).count
          result := (App.runAux providers max_count behavior elapsed rest (count + 1)).result }) :=
  rfl

lemma runAux_result_ok (providers : List HttpJsonRpcProvider) (max_count : Nat)
    (behavior : String → HttpJsonRpcProvider → Outcome)
    (elapsed : String → HttpJsonRpcProvider → Nat)
    (lines : List String) (count : Nat) :
    (App.runAux providers max_count behavior elapsed lines count).result =
      Except.ok () := by
  induction lines generalizing count with
  | nil => rfl
  | cons line rest ih =>
    rw [runAux_cons]
    split
    · rfl
    · exact ih (count + 1)

lemma runAux_sent (providers : List HttpJsonRpcProvider) (max_count : Nat)
    (behavior : String → HttpJsonRpcProvider → Outcome)
    (elapsed : String → HttpJsonRpcProvider → Nat)
    (lines : List String) (count : Nat) :
    (App.runAux providers max_count behavior elapsed lines count).sent =
      lines.take (Nat.max (max_count - count) 1) := by
  induction lines generalizing count with
  | nil => simp [App.runAux]
  | cons line rest ih =>
    rw [runAux_cons]
    by_cases h : max_count ≤ count + 1
    · rw [if_pos h]
      have h1 : Nat.max (max_count - count) 1 = 1 := Nat.max_eq_right (by omega)
      rw [h1]
      rfl
    · rw [if_neg h]
      have e1 : Nat.max (max_count - count) 1 = max_count - count :=
        Nat.max_eq_left (by omega)
      have e2 : Nat.max (max_count - (count + 1)) 1 = max_count - (count + 1) :=
        Nat.max_eq_left (by omega)
      have h2 : Nat.max (max_count - count) 1 =
          (Nat.max (max_count - (count + 1)) 1) + 1 := by
        rw [e1, e2]
        omega
      rw [h2, List.take_succ_cons]
      simp [ih (count + 1)]

lemma runAux_count (providers : List HttpJsonRpcProvider) (max_count : Nat)
    (behavior : String → HttpJsonRpcProvider → Outcome)
    (elapsed : String → HttpJsonRpcProvider → Nat)
    (lines : List String) (count : Nat) :
    (App.runAux providers max_count behavior elapsed lines count).count =
      count + (App.runAux providers max_count behavior elapsed lines count).sent.length := by
  induction lines generalizing count with
  | nil => rfl
  | cons line rest ih =>
    rw [runAux_cons]
    split
    · rfl
    · simp only [List.length_cons]
      rw [ih (count + 1)]
      omega

lemma runAux_outputs (providers : List HttpJsonRpcProvider) (max_count : Nat)
    (behavior : String → HttpJsonRpcProvider → Outcome)
    (elapsed : String → HttpJsonRpcProvider → Nat)
    (lines : List String) (count : Nat) :
    (App.runAux providers max_count behavior elapsed lines count).outputs =
      (App.runAux providers max_count behavior elapsed lines count).sent.map
        (fun line => App.send_supposed_json providers (behavior line) (elapsed line)) := by
  induction lines generalizing count with
  | nil => rfl
  | cons line rest ih =>
    rw [runAux_cons]
    split
    · rfl
    · simp [ih (count + 1)]

lemma run_sent (app : App) (behavior : String → HttpJsonRpcProvider → Outcome)
    (elapsed : String → HttpJsonRpcProvider → Nat) (lines : List String) :
    (App.run app behavior elapsed lines).sent =
      lines.take (Nat.max app.max_count 1) := by
  unfold App.run
  rw [runAux_sent, Nat.sub_zero]

lemma run_count (app : App) (behavior : String → HttpJsonRpcProvider → Outcome)
    (elapsed : String → HttpJsonRpcProvider → Nat) (lines : List String) :
    (App.run app behavior elapsed lines).count =
      min (Nat.max app.max_count 1) lines.length := by
  unfold App.run
  rw [runAux_count, runAux_sent, Nat.sub_zero]
  simp [List.length_take]

lemma errorMessages_mem (providers : List HttpJsonRpcProvider)
    (transport : HttpJsonRpcProvider → Outcome)
    (elapsed : HttpJsonRpcProvider → Nat)
    (p : HttpJsonRpcProvider) (msg : String)
    (hp : p ∈ providers) (ht : transport p = Outcome.err msg) :
    msg ∈ errorMessages (collectResponses providers transport elapsed) := by
  refine List.mem_filterMap.2 ⟨(p, transport p, elapsed p), ?_, ?_⟩
  · exact List.mem_map_of_mem _ hp
  · rw [ht]

lemma broadcast_getD (providers : List HttpJsonRpcProvider) (line : String)
    (i : Nat) (h : i < providers.length) :
    ((App.broadcast providers line).map Prod.snd).getD i "" = line := by
  unfold App.broadcast
  rw [List.map_map]
  induction providers generalizing i with
  | nil => simp at h
  | cons p rest ih =>
    cases i with
    | zero => rfl
    | succ n => exact ih n (by simpa using h)

/-- C1: no network/chain identity is ever fetched or compared during pool
build.  Whatever identities two endpoints would report — even differing
ones — `App::new` keeps both providers; no provider is dropped for an
identity mismatch. -/
theorem identity_mismatch_not_dropped (identity : Url → String)
    (hdiff : identity "http://a/" ≠ identity "http://b/") :
    App.new Option.some
        { rpcs := ["http://a/", "http://b/"], max_count := default_count } =
      Except.ok
        { http_providers :=
            [HttpJsonRpcProvider.new "http://a/", HttpJsonRpcProvider.new "http://b/"]
          max_count := default_count } := rfl

/-- Witness for C1: two distinct endpoint addresses with pairwise different
reported identities both survive pool build. -/
theorem identity_mismatch_not_dropped_witness :
    (fun u : Url => u) "http://a/" ≠ (fun u : Url => u) "http://b/" ∧
    App.new Option.some
        { rpcs := ["http://a/", "http://b/"], max_count := default_count } =
      Except.ok
        { http_providers :=
            [HttpJsonRpcProvider.new "http://a/", HttpJsonRpcProvider.new "http://b/"]
          max_count := default_count } :=
  ⟨by decide, identity_mismatch_not_dropped (fun u => u) (by decide)⟩

/-- C2 counterexample: the line "oops" cannot parse as a request envelope,
yet `App::run` hands it to the providers verbatim and advances the counter:
no parse step exists in the loop. -/
theorem malformed_line_still_counted_counterexample :
    couldBeRequestEnvelope "oops" = false ∧
    (App.run appAB okTransportL zeroElapsedL ["oops"]).sent = ["oops"] ∧
    (App.run appAB okTransportL zeroElapsedL ["oops"]).count = 1 :=
  ⟨by decide, rfl, rfl⟩

/-- C2 (amended): `App::run` performs no request-line parsing at all: the
lines handed to the providers are exactly the leading input lines verbatim,
malformed lines included, and every line handed over advances the counter by
one. -/
theorem lines_sent_verbatim_and_counted (app : App)
    (behavior : String → HttpJsonRpcProvider → Outcome)
    (elapsed : String → HttpJsonRpcProvider → Nat) (lines : List String) :
    (App.run app behavior elapsed lines).sent =
      lines.take (Nat.max app.max_count 1) ∧
    (App.run app behavior elapsed lines).count =
      (App.run app behavior elapsed lines).sent.length := by
  refine ⟨run_sent app behavior elapsed lines, ?_⟩
  unfold App.run
  rw [runAux_count]
  exact Nat.zero_add _

/-- C3: the "all matched" signal is reported if and only if the success-body
frequency table has exactly one distinct entry and the error-message
frequency table has zero entries, i.e. iff the collected outcomes contain
exactly one distinct success body and no error message at all. -/
theorem all_matched_iff (providers : List HttpJsonRpcProvider)
    (transport : HttpJsonRpcProvider → Outcome)
    (elapsed : HttpJsonRpcProvider → Nat) :
    (App.send_supposed_json providers transport elapsed).all_matched = true ↔
      ((successBodies (collectResponses providers transport elapsed)).toFinset.card = 1 ∧
       (errorMessages (collectResponses providers transport elapsed)).toFinset.card = 0) := by
  rw [send_all_matched_eq, tally_fst, tally_snd]
  simp only [Counter.len, List.toFinset_coe, Bool.and_eq_true, beq_iff_eq]
  tauto

/-- C4 counterexample: a run in which the two providers disagree on the
response body — two distinct entries in the success table, the "all
matched" signal off — still makes `send_supposed_json` return `Ok(())` and
`App::run` return `Ok(())`: the exit indication does not become a failure. -/
theorem mismatch_exit_ok_counterexample :
    Counter.len
      (App.send_supposed_json appAB.http_providers splitTransport zeroElapsed0).successes = 2 ∧
    (App.send_supposed_json appAB.http_providers splitTransport zeroElapsed0).all_matched =
      false ∧
    (App.send_supposed_json appAB.http_providers splitTransport zeroElapsed0).result =
      Except.ok () ∧
    (App.run appAB (fun _ => splitTransport) zeroElapsedL ["req"]).result =
      Except.ok () :=
  ⟨by decide, by decide, rfl, rfl⟩

/-- C4 (amended): the exit indication is independent of the comparison
verdict: `App::send_supposed_json` returns `Ok(())` on every input, so
`App::run` also returns `Ok(())` on every input, mismatch found or not;
disagreements are only printed. -/
theorem exit_status_ignores_mismatch (app : App)
    (behavior : String → HttpJsonRpcProvider → Outcome)
    (elapsed : String → HttpJsonRpcProvider → Nat) (lines : List String) :
    (App.run app behavior elapsed lines).result = Except.ok () ∧
    ∀ line,
      (App.send_supposed_json app.http_providers (behavior line) (elapsed line)).result =
        Except.ok () :=
  ⟨runAux_result_ok app.http_providers app.max_count behavior elapsed lines 0,
   fun line => send_result_ok app.http_providers (behavior line) (elapsed line)⟩

/-- C5: a per-call failure of one provider on one request is recorded as an
entry of the error-message table, never propagated as an error of the run:
the aggregation still returns `Ok(())`, every provider of the pool still
contributes its tuple to the collected responses, and the run loop keeps
processing the same lines no matter what the per-line outcomes are. -/
theorem per_call_failure_recorded_not_propagated
    (providers : List HttpJsonRpcProvider)
    (transport : HttpJsonRpcProvider → Outcome)
    (elapsed : HttpJsonRpcProvider → Nat)
    (p : HttpJsonRpcProvider) (msg : String)
    (hp : p ∈ providers) (ht : transport p = Outcome.err msg) :
    (App.send_supposed_json providers transport elapsed).result = Except.ok () ∧
    1 ≤ Multiset.count msg (App.send_supposed_json providers transport elapsed).errors ∧
    (∀ q ∈ providers,
      (q, transport q, elapsed q) ∈ collectResponses providers transport elapsed) ∧
    ∀ (maxc : Nat) (behavior : String → HttpJsonRpcProvider → Outcome)
      (lineElapsed : String → HttpJsonRpcProvider → Nat) (lines : List String),
      (App.run { http_providers := providers, max_count := maxc }
          behavior lineElapsed lines).result = Except.ok () ∧
      (App.run { http_providers := providers, max_count := maxc }
          behavior lineElapsed lines).sent = lines.take (Nat.max maxc 1) := by
  refine ⟨send_result_ok providers transport elapsed, ?_, ?_, ?_⟩
  · rw [send_errors, tally_snd]
    exact Multiset.count_pos.2
      (Multiset.mem_coe.2 (errorMessages_mem providers transport elapsed p msg hp ht))
  · exact fun q hq => List.mem_map_of_mem _ hq
  · intro maxc behavior lineElapsed lines
    exact ⟨runAux_result_ok providers maxc behavior lineElapsed lines 0,
      run_sent { http_providers := providers, max_count := maxc } behavior lineElapsed lines⟩

/-- Witness for C5: with endpoint b failing with message "boom", the
aggregation records "boom" in the error table and still returns `Ok(())`. -/
theorem per_call_failure_recorded_not_propagated_witness :
    provB ∈ appAB.http_providers ∧ failTransport provB = Outcome.err "boom" ∧
    (App.send_supposed_json appAB.http_providers failTransport zeroElapsed0).result =
      Except.ok () ∧
    1 ≤ Multiset.count "boom"
      (App.send_supposed_json appAB.http_providers failTransport zeroElapsed0).errors :=
  ⟨by decide, by decide,
   (per_call_failure_recorded_not_propagated appAB.http_providers failTransport
      zeroElapsed0 provB "boom" (by decide) (by decide)).1,
   (per_call_failure_recorded_not_propagated appAB.http_providers failTransport
      zeroElapsed0 provB "boom" (by decide) (by decide)).2.1⟩

/-- C6 counterexample: with configured maximum 0 the loop still sends the
first line — one request sent, exceeding the configured maximum — because
the bound is only checked after a send. -/
theorem max_count_zero_counterexample :
    (App.run { http_providers := [], max_count := 0 } okTransportL zeroElapsedL
        ["hello"]).count = 1 ∧
    (App.run { http_providers := [], max_count := 0 } okTransportL zeroElapsedL
        ["hello"]).sent = ["hello"] :=
  ⟨rfl, rfl⟩

/-- C6 (amended): the default maximum is 1000, and for every configured
maximum of at least one, the loop stops at the maximum or at end of stream,
so the number of requests sent never exceeds the maximum. -/
theorem sent_requests_bounded (app : App)
    (behavior : String → HttpJsonRpcProvider → Outcome)
    (elapsed : String → HttpJsonRpcProvider → Nat) (lines : List String)
    (h : 1 ≤ app.max_count) :
    default_count = 1000 ∧
    (App.run app behavior elapsed lines).count ≤ app.max_count ∧
    (App.run app behavior elapsed lines).sent.length ≤ app.max_count := by
  have hmax : Nat.max app.max_count 1 = app.max_count := Nat.max_eq_left h
  refine ⟨rfl, ?_, ?_⟩
  · rw [run_count, hmax]
    exact Nat.min_le_left _ _
  · rw [run_sent, hmax]
    exact List.length_take_le _ _

/-- Witness for C6: a two-line stream under the default maximum stays within
the bound. -/
theorem sent_requests_bounded_witness :
    default_count = 1000 ∧ 1 ≤ appAB.max_count ∧
    (App.run appAB okTransportL zeroElapsedL ["x", "y"]).count ≤ appAB.max_count :=
  ⟨(sent_requests_bounded appAB okTransportL zeroElapsedL ["x", "y"] (by decide)).1,
   by decide,
   (sent_requests_bounded appAB okTransportL zeroElapsedL ["x", "y"] (by decide)).2.1⟩

/-- C7: every provider of the pool receives, over the whole run, the same
ordered sequence of verbatim request copies — the very lines the loop
accepted — so any two providers observe the stream in the same order with
the same per-position identity. -/
theorem broadcast_identical_ordered_stream (app : App)
    (behavior : String → HttpJsonRpcProvider → Outcome)
    (elapsed : String → HttpJsonRpcProvider → Nat) (lines : List String)
    (i j : Nat) (hi : i < app.http_providers.length)
    (hj : j < app.http_providers.length) :
    deliveredSeq app behavior elapsed lines i =
      deliveredSeq app behavior elapsed lines j ∧
    deliveredSeq app behavior elapsed lines i =
      (App.run app behavior elapsed lines).sent := by
  have key : ∀ k, k < app.http_providers.length →
      deliveredSeq app behavior elapsed lines k =
        (App.run app behavior elapsed lines).sent := by
    intro k hk
    unfold deliveredSeq
    have hcongr : ∀ line ∈ (App.run app behavior elapsed lines).sent,
        ((App.broadcast app.http_providers line).map Prod.snd).getD k "" = line :=
      fun line _ => broadcast_getD app.http_providers line k hk
    rw [List.map_congr_left hcongr]
    exact List.map_id' _
  exact ⟨(key i hi).trans (key j hj).symm, key i hi⟩

/-- Witness for C7: in the two-provider pool both positions receive the same
delivered stream. -/
theorem broadcast_identical_ordered_stream_witness :
    (0 < appAB.http_providers.length ∧ 1 < appAB.http_providers.length) ∧
    deliveredSeq appAB okTransportL zeroElapsedL ["x", "y"] 0 =
      deliveredSeq appAB okTransportL zeroElapsedL ["x", "y"] 1 :=
  ⟨⟨by decide, by decide⟩,
   (broadcast_identical_ordered_stream appAB okTransportL zeroElapsedL ["x", "y"]
      0 1 (by decide) (by decide)).1⟩

/-- C8: pool build never fails as a whole, and the surviving pool consists
exactly of the providers built from the addresses the URL parser accepts, in
order; unparseable addresses are merely excluded. -/
theorem pool_build_keeps_parsed_endpoints (parseUrl : String → Option Url)
    (config : VersusConfig) :
    App.new parseUrl config =
      Except.ok
        { http_providers :=
            (config.rpcs.filterMap parseUrl).map HttpJsonRpcProvider.new
          max_count := config.max_count } := by
  unfold App.new
  rw [App.new_foldl]
  rfl

/-- C9: the aggregation pass is a deterministic, stateless function of the
per-provider outcomes: it leaves the pool state — each provider's `next_id`
counter included — unchanged, and a second pass over the post-run state with
the same responses produces the identical tables, signal and result. -/
theorem aggregation_deterministic_stateless (providers : List HttpJsonRpcProvider)
    (transport : HttpJsonRpcProvider → Outcome)
    (elapsed : HttpJsonRpcProvider → Nat) :
    (App.send_supposed_json_st providers transport elapsed).2 = providers ∧
    (App.send_supposed_json_st
        (App.send_supposed_json_st providers transport elapsed).2 transport elapsed).1 =
      (App.send_supposed_json_st providers transport elapsed).1 := by
  have h2 : (App.send_supposed_json_st providers transport elapsed).2 = providers := by
    simp [App.send_supposed_json_st, HttpJsonRpcProvider.sendSt]
  exact ⟨h2, by rw [h2]⟩

/-- C10: every provider contributes exactly one outcome per request, so the
total multiplicity of the success table plus that of the error table equals
the pool size; with an empty pool both tables are empty and the "all
matched" signal is never reported. -/
theorem outcome_conservation (providers : List HttpJsonRpcProvider)
    (transport : HttpJsonRpcProvider → Outcome)
    (elapsed : HttpJsonRpcProvider → Nat) :
    Multiset.card (App.send_supposed_json providers transport elapsed).successes +
      Multiset.card (App.send_supposed_json providers transport elapsed).errors =
      providers.length ∧
    (providers = [] →
      (App.send_supposed_json providers transport elapsed).successes = 0 ∧
      (App.send_supposed_json providers transport elapsed).errors = 0 ∧
      (App.send_supposed_json providers transport elapsed).all_matched = false) := by
  constructor
  · rw [send_successes, send_errors, tally_card_sum]
    simp [collectResponses]
  · rintro rfl
    refine ⟨rfl, rfl, rfl⟩

/-- Witness for C10 at the empty pool: both tables have total multiplicity 0
and the "all matched" signal is off. -/
theorem outcome_conservation_witness :
    Multiset.card (App.send_supposed_json [] okTransport0 zeroElapsed0).successes +
      Multiset.card (App.send_supposed_json [] okTransport0 zeroElapsed0).errors = 0 ∧
    (App.send_supposed_json [] okTransport0 zeroElapsed0).all_matched = false :=
  ⟨(outcome_conservation [] okTransport0 zeroElapsed0).1,
   ((outcome_conservation [] okTransport0 zeroElapsed0).2 rfl).2.2⟩

end Versus

